import Mathlib

/-!
Verification development for the complaint-hub-pro repository: a shallow
embedding of the backend's complaint lifecycle (controllers in
`src/backend/src/controllers/complaintsController.ts`, the comments
controller, the auth middleware in
`src/backend/src/middleware/authMiddleware.ts`, the route table in
`src/backend/src/routes/complaints.ts`, the markdown pipeline in
`src/utils/markdown.ts` / `src/middleware/validationMiddleware.ts`, and the
database triggers in `src/backend/database/schema.sql`), together with
theorems about the embedded operations.

Conventions of the embedding:
* timestamps (`new Date()`, SQL `NOW()`) are a `Nat` parameter `now`;
* database tables are Lean lists of rows; a supabase
  `update ... .eq('id', x)` is a map over the list guarded by the
  primary-key equality; `.single()` on a primary-key match returns the
  updated row;
* JavaScript's `String.prototype.split` with a one-character separator is
  embedded as `splitChar` on the character list (it keeps empty segments
  and yields one empty segment for the empty string, like JS);
* JavaScript's `toUpperCase` on the ASCII identifiers used here is
  `Char.toUpper` mapped over the string;
* third-party library calls (`jwt.verify`, `marked`, the DOM parser) are
  function parameters of the embedded operations, so every theorem
  quantifies over their behaviour.
-/

namespace ComplaintHub

/-- A row of the `complaints` table (schema.sql, `complaints`).
`complaint_html` is kept abstract as a string; `resolved_at` is the
nullable resolution timestamp. -/
structure Complaint where
  id : String
  name : String
  email : String
  complaint : String
  complaint_html : String
  status : String
  created_at : Nat
  updated_at : Nat
  resolved_at : Option Nat
deriving Repr, DecidableEq

/-- A row of the `complaint_comments` table (schema.sql). -/
structure Comment where
  id : String
  complaint_id : String
  author_id : String
  author_name : String
  comment_text : String
  comment_html : String
  is_internal : Bool
deriving Repr, DecidableEq

/-- A row of the `admin_users` table (schema.sql), restricted to the
columns the middleware and comment controller read. -/
structure AdminUser where
  id : String
  email : String
  name : String
  role : String
  is_active : Bool
deriving Repr, DecidableEq

/-! ## JavaScript string helpers used by the controllers -/

/-- JavaScript's `String.prototype.split` with a one-character separator,
on the underlying character list: keeps empty segments, and splitting the
empty string yields one empty segment, exactly as in JS. -/
def splitChar (sep : Char) : List Char → List (List Char)
  | [] => [[]]
  | c :: cs =>
    if c = sep then [] :: splitChar sep cs
    else
      match splitChar sep cs with
      | [] => [[c]]
      | r :: rs => (c :: r) :: rs

/-- JavaScript's `toUpperCase` on the ASCII strings this backend handles
(UUID segments, bearer tokens): uppercase each character. -/
def jsToUpper (s : String) : String :=
  String.mk (s.data.map Char.toUpper)

/-- `id.split('-')[0]`: the leading segment of an identifier, up to the
first hyphen (the whole string when there is no hyphen). -/
def leadSeg (s : String) : String :=
  String.mk ((splitChar '-' s.data).headD [])

/-- The derived public tracking id of a stored identifier:
`id.split('-')[0].toUpperCase()` (complaintsController.ts line 41). -/
def trackingOf (id : String) : String :=
  jsToUpper (leadSeg id)

/-- The tracking-id comparison used by `getComplaintByTrackingId` and
`withdrawComplaint` (complaintsController.ts lines 218-221, 280-283):
`complaint.id.split('-')[0].toUpperCase() === trackingId.toUpperCase()`. -/
def trackingMatches (trackingId : String) (c : Complaint) : Bool :=
  decide (trackingOf c.id = jsToUpper trackingId)

theorem char_toNat_ofNat (n : Nat) (h : n < 55296) : (Char.ofNat n).toNat = n := by
  rw [Char.ofNat, dif_pos (Or.inl h)]
  rfl

theorem toUpper_idem (c : Char) : c.toUpper.toUpper = c.toUpper := by
  unfold Char.toUpper
  by_cases h : c.toNat ≥ 97 ∧ c.toNat ≤ 122
  · rw [if_pos h]
    have hv : (Char.ofNat (c.toNat - 32)).toNat = c.toNat - 32 :=
      char_toNat_ofNat _ (by omega)
    rw [if_neg (by omega)]
  · rw [if_neg h, if_neg h]

theorem jsToUpper_idem (s : String) : jsToUpper (jsToUpper s) = jsToUpper s := by
  simp [jsToUpper, List.map_map, Function.comp_def, toUpper_idem]

theorem jsToUpper_eq_empty_iff (s : String) : jsToUpper s = "" ↔ s = "" := by
  cases s with
  | mk l =>
    cases l with
    | nil => simp [jsToUpper]
    | cons c cs =>
      constructor
      · intro h
        exact absurd (congrArg String.data h) (by simp [jsToUpper])
      · intro h
        exact absurd (congrArg String.data h) (by simp)

/-! ## The status-update endpoint and the database triggers -/

/-- The `updateData` object built by `updateComplaint`
(complaintsController.ts lines 146-153): it always sets `status` and
`updated_at`, and sets `resolved_at` only when the target status is
`'Resolved'` (otherwise the column is left as stored). -/
def applyUpdateData (now : Nat) (status : String) (c : Complaint) : Complaint :=
  { c with
    status := status
    updated_at := now
    resolved_at := if status = "Resolved" then some now else c.resolved_at }

/-- The `set_resolved_at` BEFORE UPDATE trigger (schema.sql lines
326-340): stamps `resolved_at` on a transition into `Resolved`, clears it
whenever the new status is not `Resolved`, and otherwise leaves the row
unchanged. `oldStatus` is `OLD.status`, `row` is `NEW`. -/
def setResolvedAtTrigger (now : Nat) (oldStatus : String) (row : Complaint) : Complaint :=
  if row.status = "Resolved" ∧ oldStatus ≠ "Resolved" then
    { row with resolved_at := some now }
  else if row.status ≠ "Resolved" then
    { row with resolved_at := none }
  else
    row

/-- The `update_updated_at_column` BEFORE UPDATE trigger (schema.sql lines
304-315): overwrites `updated_at` with `NOW()`. -/
def updateUpdatedAtTrigger (now : Nat) (row : Complaint) : Complaint :=
  { row with updated_at := now }

/-- The complete effect of the admin status-update endpoint
(`PATCH /api/complaints/:id`, `updateComplaint`) on one complaint row: the
controller's `updateData` followed by the two BEFORE UPDATE triggers on
the `complaints` table. -/
def updateStatusRow (now : Nat) (status : String) (c : Complaint) : Complaint :=
  updateUpdatedAtTrigger now (setResolvedAtTrigger now c.status (applyUpdateData now status c))

/-- C1: for every complaint and every status-update request, setting the
status to `Resolved` populates `resolved_at` with a (non-null) timestamp,
and setting it to any other value clears `resolved_at` to null, regardless
of the complaint's prior state. -/
theorem updateStatus_resolved_at (now : Nat) (status : String) (c : Complaint) :
    (updateStatusRow now status c).resolved_at =
      if status = "Resolved" then some now else none := by
  unfold updateStatusRow updateUpdatedAtTrigger setResolvedAtTrigger applyUpdateData
  by_cases hs : status = "Resolved" <;> by_cases ho : c.status = "Resolved" <;>
    simp [hs, ho]

/-- C7: the status-update operation is idempotent: applying it a second
time with the same target status (at any later time `t2`) produces exactly
the state a single application at `t2` would produce — there is no
toggling side effect. -/
theorem updateStatus_idempotent (t1 t2 : Nat) (status : String) (c : Complaint) :
    updateStatusRow t2 status (updateStatusRow t1 status c) =
      updateStatusRow t2 status c := by
  unfold updateStatusRow updateUpdatedAtTrigger setResolvedAtTrigger applyUpdateData
  by_cases hs : status = "Resolved" <;> by_cases ho : c.status = "Resolved" <;>
    simp [hs, ho]

/-! ## Public submission (`POST /api/complaints`, `createComplaint`) -/

/-- The request body of a public submission. The controller destructures
only `name`, `email` and `complaint` (complaintsController.ts line 8); the
`status` field stands for any status a client may try to supply — it is
never read. -/
structure SubmitReq where
  name : String
  email : String
  complaint : String
  status : Option String
deriving Repr, DecidableEq

/-- The 201 response body of `createComplaint`: the new row's `id` and the
derived `trackingId` (complaintsController.ts lines 36-43). -/
inductive CreateResult where
  | created (id : String) (trackingId : String)
deriving Repr, DecidableEq

/-- The row inserted by `createComplaint` (complaintsController.ts lines
12-24): the request's `name`, `email` and `complaint`, the rendered
markdown, and status hard-coded to `'Pending'`. `genId` is the UUID the
database generates for the insert; `now` the insertion timestamp. -/
def newComplaintRow (processMd : String → String) (now : Nat) (genId : String)
    (req : SubmitReq) : Complaint :=
  { id := genId
    name := req.name
    email := req.email
    complaint := req.complaint
    complaint_html := processMd req.complaint
    status := "Pending"
    created_at := now
    updated_at := now
    resolved_at := none }

/-- `createComplaint` (complaintsController.ts lines 6-51): renders the
markdown body (`processMd` is the markdown pipeline), inserts
`newComplaintRow`, and returns 201 with the generated id and the derived
tracking id `id.split('-')[0].toUpperCase()`. -/
def createComplaint (processMd : String → String) (now : Nat) (genId : String)
    (req : SubmitReq) (db : List Complaint) : CreateResult × List Complaint :=
  (.created genId (trackingOf genId), db ++ [newComplaintRow processMd now genId req])

/-- C4: for every valid public submission, the complaint stored by the
submit operation has status `Pending`, regardless of any `status` field
supplied in the request body (the body's status is quantified over via
`req.status` and never influences the stored row). -/
theorem submit_forces_pending (processMd : String → String) (now : Nat)
    (genId : String) (req : SubmitReq) (db : List Complaint) :
    ∃ r : Complaint,
      createComplaint processMd now genId req db =
        (.created genId (trackingOf genId), db ++ [r]) ∧
      r.status = "Pending" ∧ r.id = genId :=
  ⟨_, rfl, rfl, rfl⟩

/-! ## Lookups (`GET /api/complaints/public/:trackingId` and
`GET /api/complaints/:id`) -/

/-- The embedded join `complaints → complaint_comments`: the stored
comments belonging to a complaint id. -/
def commentsOf (comments : List Comment) (cid : String) : List Comment :=
  comments.filter (fun cm => decide (cm.complaint_id = cid))

/-- Responses of the public tracking-id lookup: 400 when the tracking id
is missing/empty, 404 on no match, 200 with the complaint and its
comments otherwise. -/
inductive LookupResult where
  | badRequest
  | notFound
  | ok (c : Complaint) (comments : List Comment)
deriving Repr, DecidableEq

/-- `getComplaintByTrackingId` (complaintsController.ts lines 184-251):
rejects an empty tracking id, scans all complaints for a case-insensitive
leading-segment match, 404s when none matches, and returns the first
match with its internal comments filtered out. -/
def getComplaintByTrackingId (complaints : List Complaint) (comments : List Comment)
    (trackingId : String) : LookupResult :=
  if trackingId = "" then .badRequest
  else
    match complaints.filter (trackingMatches trackingId) with
    | [] => .notFound
    | c :: _ => .ok c ((commentsOf comments c.id).filter (fun cm => !cm.is_internal))

/-- Responses of the admin get-by-id lookup: 404 or 200 with the
complaint and all of its comments. -/
inductive GetByIdResult where
  | notFound
  | ok (c : Complaint) (comments : List Comment)
deriving Repr, DecidableEq

/-- `getComplaintById` (complaintsController.ts lines 103-139): selects
the complaint with the given internal id together with all of its
comments (no `is_internal` filter). -/
def getComplaintById (complaints : List Complaint) (comments : List Comment)
    (id : String) : GetByIdResult :=
  match complaints.find? (fun c => decide (c.id = id)) with
  | none => .notFound
  | some c => .ok c (commentsOf comments c.id)

/-- C5: the public tracking-id lookup response never contains a comment
whose `is_internal` flag is true, while the authenticated get-by-id
operation returns every stored comment of the complaint, internal and
public. -/
theorem lookup_comment_visibility :
    (∀ (complaints : List Complaint) (comments : List Comment) (tid : String)
        (c : Complaint) (cs : List Comment),
      getComplaintByTrackingId complaints comments tid = .ok c cs →
      ∀ cm ∈ cs, cm.is_internal = false) ∧
    (∀ (complaints : List Complaint) (comments : List Comment) (id : String)
        (c : Complaint) (cs : List Comment),
      getComplaintById complaints comments id = .ok c cs →
      ∀ cm ∈ comments, cm.complaint_id = c.id → cm ∈ cs) := by
  constructor
  · intro complaints comments tid c cs h cm hm
    unfold getComplaintByTrackingId at h
    by_cases htid : tid = ""
    · simp [htid] at h
    · rw [if_neg htid] at h
      cases hf : complaints.filter (trackingMatches tid) with
      | nil => rw [hf] at h; exact absurd h (by simp)
      | cons c' rest =>
        rw [hf] at h
        have hcs : cs = (commentsOf comments c'.id).filter (fun cm => !cm.is_internal) :=
          (LookupResult.ok.injEq _ _ _ _).mp h |>.2.symm
        rw [hcs] at hm
        have := (List.mem_filter.mp hm).2
        simpa using this
  · intro complaints comments id c cs h cm hm hcid
    unfold getComplaintById at h
    cases hf : complaints.find? (fun c => decide (c.id = id)) with
    | none => rw [hf] at h; exact absurd h (by simp)
    | some c' =>
      rw [hf] at h
      obtain ⟨hc, hcs⟩ := (GetByIdResult.ok.injEq _ _ _ _).mp h
      rw [← hcs]
      exact List.mem_filter.mpr ⟨hm, by simp [hc, hcid]⟩

/-- A complaint used to instantiate the lookup theorems on concrete data. -/
def exComplaint : Complaint :=
  { id := "ab12-xyz"
    name := "Ann"
    email := "ann@example.com"
    complaint := "This is a long enough complaint body."
    complaint_html := "<p>This is a long enough complaint body.</p>"
    status := "Pending"
    created_at := 0
    updated_at := 0
    resolved_at := none }

/-- A public comment on `exComplaint`. -/
def exPublicComment : Comment :=
  { id := "c1"
    complaint_id := "ab12-xyz"
    author_id := "u1"
    author_name := "Agent"
    comment_text := "public note"
    comment_html := "<p>public note</p>"
    is_internal := false }

/-- An internal comment on `exComplaint`. -/
def exInternalComment : Comment :=
  { id := "c2"
    complaint_id := "ab12-xyz"
    author_id := "u1"
    author_name := "Agent"
    comment_text := "internal note"
    comment_html := "<p>internal note</p>"
    is_internal := true }

theorem lookup_comment_visibility_witness :
    getComplaintByTrackingId [exComplaint] [exPublicComment, exInternalComment] "AB12" =
      .ok exComplaint [exPublicComment] ∧
    exPublicComment.is_internal = false ∧
    getComplaintById [exComplaint] [exPublicComment, exInternalComment] "ab12-xyz" =
      .ok exComplaint [exPublicComment, exInternalComment] ∧
    exInternalComment ∈ [exPublicComment, exInternalComment] :=
  ⟨by decide,
   lookup_comment_visibility.1 [exComplaint] [exPublicComment, exInternalComment]
     "AB12" exComplaint [exPublicComment] (by decide) exPublicComment (by decide),
   by decide,
   lookup_comment_visibility.2 [exComplaint] [exPublicComment, exInternalComment]
     "ab12-xyz" exComplaint [exPublicComment, exInternalComment] (by decide)
     exInternalComment (by decide) (by decide)⟩

/-! ## Public withdraw (`PATCH /api/complaints/public/:trackingId/withdraw`) -/

/-- Responses of the withdraw endpoint: 400 for an empty tracking id, 404
for no match, 200 with the updated row on success. -/
inductive WithdrawResult where
  | badRequest
  | notFound
  | ok (c : Complaint)
deriving Repr, DecidableEq

/-- The row transformation performed by `withdrawComplaint`'s update
(complaintsController.ts lines 295-303): set `status` to `'Withdrawn'`
and `updated_at`, then the BEFORE UPDATE triggers of the `complaints`
table fire. -/
def withdrawRow (now : Nat) (c : Complaint) : Complaint :=
  updateUpdatedAtTrigger now
    (setResolvedAtTrigger now c.status { c with status := "Withdrawn", updated_at := now })

/-- A supabase `update(...).eq('id', cid)` over the complaints table:
apply `f` to the rows whose primary key equals `cid` (by the schema's
PRIMARY KEY constraint there is at most one). -/
def updateById (db : List Complaint) (cid : String) (f : Complaint → Complaint) :
    List Complaint :=
  db.map fun x => if x.id = cid then f x else x

/-- `withdrawComplaint` (complaintsController.ts lines 253-325): rejects
an empty tracking id, scans all complaints for a case-insensitive
leading-segment match, 404s when none matches, and otherwise
unconditionally updates the first match to status `'Withdrawn'` — no
check of the prior status is performed. The response carries the updated
row (`.single()` on the primary-key match). -/
def withdrawComplaint (now : Nat) (db : List Complaint) (trackingId : String) :
    WithdrawResult × List Complaint :=
  if trackingId = "" then (.badRequest, db)
  else
    match db.filter (trackingMatches trackingId) with
    | [] => (.notFound, db)
    | target :: _ =>
      (.ok (withdrawRow now target), updateById db target.id (withdrawRow now))

/-- C3: for the stored complaint resolved by a case-insensitive
tracking-id match (the first matching row), the unauthenticated withdraw
operation succeeds and sets its status to `Withdrawn`, with no hypothesis
whatsoever on the complaint's prior status (in particular a `Resolved`
complaint is withdrawn all the same): no Pending-only precondition is
enforced. -/
theorem withdraw_ignores_prior_status (now : Nat) (db : List Complaint)
    (tid : String) (c : Complaint) (htid : tid ≠ "")
    (hfirst : (db.filter (trackingMatches tid)).head? = some c) :
    withdrawComplaint now db tid =
      (.ok (withdrawRow now c), updateById db c.id (withdrawRow now)) ∧
    (withdrawRow now c).status = "Withdrawn" := by
  have hstat : (withdrawRow now c).status = "Withdrawn" := by
    unfold withdrawRow updateUpdatedAtTrigger setResolvedAtTrigger
    by_cases h : c.status = "Resolved" <;> simp [h]
  refine ⟨?_, hstat⟩
  unfold withdrawComplaint
  rw [if_neg htid]
  cases hf : db.filter (trackingMatches tid) with
  | nil => rw [hf] at hfirst; exact absurd hfirst (by simp)
  | cons t rest =>
    rw [hf] at hfirst
    obtain rfl : t = c := by simpa using hfirst
    rfl

/-- A resolved complaint used to instantiate the withdraw theorem. -/
def exResolvedComplaint : Complaint :=
  { id := "cd34-uvw"
    name := "Bob"
    email := "bob@example.com"
    complaint := "Another sufficiently long complaint body."
    complaint_html := "<p>Another sufficiently long complaint body.</p>"
    status := "Resolved"
    created_at := 1
    updated_at := 2
    resolved_at := some 2 }

theorem withdraw_ignores_prior_status_witness :
    withdrawComplaint 9 [exResolvedComplaint] "cd34" =
      (.ok { exResolvedComplaint with
               status := "Withdrawn", updated_at := 9, resolved_at := none },
       [{ exResolvedComplaint with
            status := "Withdrawn", updated_at := 9, resolved_at := none }]) := by
  have h := withdraw_ignores_prior_status 9 [exResolvedComplaint] "cd34"
    exResolvedComplaint (by decide) (by decide)
  rw [h.1]
  decide

/-! ## Authentication guard (`authenticateToken`, authMiddleware.ts) -/

/-- The outcome of `jwt.verify` on a token: a decoded payload carrying the
account id, a `TokenExpiredError`, or any other `JsonWebTokenError`. The
verifier is a parameter of the guard, so theorems quantify over the JWT
library's behaviour. -/
inductive VerifyOutcome where
  | ok (userId : String)
  | expired
  | invalid
deriving Repr, DecidableEq

/-- The `req.user` object the guard attaches on success
(authMiddleware.ts lines 84-88). -/
structure AuthUser where
  id : String
  email : String
  role : String
deriving Repr, DecidableEq

/-- The guard's outcome: an error response with its HTTP status code and
`error` message, or `next()` with `req.user` set. -/
inductive AuthResult where
  | reject (statusCode : Nat) (error : String)
  | authorized (user : AuthUser)
deriving Repr, DecidableEq

/-- The HTTP status code of a rejection, `none` when the guard passed. -/
def AuthResult.rejectCode? : AuthResult → Option Nat
  | .reject code _ => some code
  | .authorized _ => none

/-- `const token = authHeader && authHeader.split(' ')[1]`
(authMiddleware.ts line 21), followed by the `if (!token)` falsiness
check: an absent or empty header, a header without a second
space-separated part, or an empty second part all yield no token. -/
def extractToken (authHeader : Option String) : Option String :=
  match authHeader with
  | none => none
  | some h =>
    if h = "" then none
    else
      match (splitChar ' ' h.data).get? 1 with
      | none => none
      | some t => if t = [] then none else some (String.mk t)

/-- `authenticateToken` (authMiddleware.ts lines 6-107): 401 when no
token is present; `jwt.verify` failures land in the catch block, which
responds 403 (`'Token expired'` for a `TokenExpiredError`, `'Invalid
token'` otherwise); a decoded token whose account is missing from
`admin_users` or not `is_active` is rejected 401 with the single message
`'Invalid or expired token'`; otherwise `req.user` is set and the chain
continues. -/
def authenticateToken (verify : String → VerifyOutcome) (admins : List AdminUser)
    (authHeader : Option String) : AuthResult :=
  match extractToken authHeader with
  | none => .reject 401 "Access token required"
  | some token =>
    match verify token with
    | .expired => .reject 403 "Token expired"
    | .invalid => .reject 403 "Invalid token"
    | .ok uid =>
      match admins.find? (fun a => decide (a.id = uid)) with
      | none => .reject 401 "Invalid or expired token"
      | some u =>
        if u.is_active then .authorized ⟨u.id, u.email, u.role⟩
        else .reject 401 "Invalid or expired token"

/-- C2, counterexample: a request carrying an expired bearer token is
rejected with HTTP status 403, not 401 — the claim that all three failure
cases yield 401 is false on the code (the `jwt.verify` throw lands in the
catch block, which sends 403). -/
theorem auth_expired_is_403_not_401 :
    (authenticateToken (fun _ => .expired) [] (some "Bearer sometoken")).rejectCode? =
      some 403 ∧
    (authenticateToken (fun _ => .expired) [] (some "Bearer sometoken")).rejectCode? ≠
      some 401 := by
  constructor <;> decide

/-- C2, amended: a request with no bearer token is rejected 401
(`'Access token required'`); an expired token is rejected 403
(`'Token expired'`), not 401; a structurally valid token for a missing
account and one for a deactivated account are both rejected 401 with the
identical body `'Invalid or expired token'`, so the response does not
reveal which of those two sub-checks failed. -/
theorem auth_guard_responses (verify : String → VerifyOutcome)
    (admins : List AdminUser) (hdr : Option String) :
    (extractToken hdr = none →
      authenticateToken verify admins hdr = .reject 401 "Access token required") ∧
    (∀ t, extractToken hdr = some t → verify t = .expired →
      authenticateToken verify admins hdr = .reject 403 "Token expired") ∧
    (∀ t uid, extractToken hdr = some t → verify t = .ok uid →
      admins.find? (fun a => decide (a.id = uid)) = none →
      authenticateToken verify admins hdr = .reject 401 "Invalid or expired token") ∧
    (∀ t uid u, extractToken hdr = some t → verify t = .ok uid →
      admins.find? (fun a => decide (a.id = uid)) = some u → u.is_active = false →
      authenticateToken verify admins hdr = .reject 401 "Invalid or expired token") := by
  refine ⟨?_, ?_, ?_, ?_⟩ <;> intros <;> simp [authenticateToken, *]

/-- A deactivated admin account used to instantiate the guard theorem. -/
def exInactiveAdmin : AdminUser :=
  { id := "u1"
    email := "old@example.com"
    name := "Former Agent"
    role := "agent"
    is_active := false }

theorem auth_guard_responses_witness :
    authenticateToken (fun _ => .invalid) [] none =
      .reject 401 "Access token required" ∧
    authenticateToken (fun _ => .expired) [] (some "Bearer tok") =
      .reject 403 "Token expired" ∧
    authenticateToken (fun _ => .ok "u1") [] (some "Bearer tok") =
      .reject 401 "Invalid or expired token" ∧
    authenticateToken (fun _ => .ok "u1") [exInactiveAdmin] (some "Bearer tok") =
      .reject 401 "Invalid or expired token" :=
  ⟨(auth_guard_responses _ _ _).1 (by decide),
   (auth_guard_responses _ _ _).2.1 "tok" (by decide) rfl,
   (auth_guard_responses _ _ _).2.2.1 "tok" "u1" (by decide) rfl (by decide),
   (auth_guard_responses _ _ _).2.2.2 "tok" "u1" exInactiveAdmin (by decide) rfl
     (by decide) (by decide)⟩

/-! ## Role guard (`requireRole`, authMiddleware.ts lines 109-120) and the
route table (routes/complaints.ts) -/

/-- The role guard's outcome: continue to the next handler, or a 403
response. -/
inductive RoleResult where
  | permit
  | reject (statusCode : Nat) (error : String)
deriving Repr, DecidableEq

/-- `requireRole(roles)` (authMiddleware.ts lines 109-120): 403
`'Insufficient permissions'` when `req.user` is unset or its role is not
in the route's allowed-role list, `next()` otherwise. A pure function of
the role and the allowed-role set. -/
def requireRole (roles : List String) (user : Option AuthUser) : RoleResult :=
  match user with
  | none => .reject 403 "Insufficient permissions"
  | some u =>
    if decide (u.role ∈ roles) then .permit
    else .reject 403 "Insufficient permissions"

/-- The allowed-role set of `DELETE /api/complaints/:id`
(routes/complaints.ts lines 57-63). -/
def deleteComplaintRoles : List String := ["admin"]

/-- The allowed-role set of `PATCH /api/complaints/:id`
(routes/complaints.ts lines 46-54). -/
def updateComplaintRoles : List String := ["admin", "agent"]

/-- C9: the role guard rejects an `agent`-role request on the
delete-complaint route with 403 and permits it on the status-update
route; and for every role set and user the guard is a pure
permit-or-403 decision. -/
theorem role_guard_agent (u : AuthUser) (hrole : u.role = "agent") :
    requireRole deleteComplaintRoles (some u) =
      .reject 403 "Insufficient permissions" ∧
    requireRole updateComplaintRoles (some u) = .permit ∧
    (∀ (roles : List String) (user : Option AuthUser),
      requireRole roles user = .permit ∨
      requireRole roles user = .reject 403 "Insufficient permissions") := by
  refine ⟨?_, ?_, ?_⟩
  · simp [requireRole, deleteComplaintRoles, hrole]
  · simp [requireRole, updateComplaintRoles, hrole]
  · intro roles user
    cases user with
    | none => exact Or.inr rfl
    | some v =>
      by_cases h : v.role ∈ roles
      · exact Or.inl (by simp [requireRole, h])
      · exact Or.inr (by simp [requireRole, h])

theorem role_guard_agent_witness :
    requireRole deleteComplaintRoles (some ⟨"u2", "agent@example.com", "agent"⟩) =
      .reject 403 "Insufficient permissions" ∧
    requireRole updateComplaintRoles (some ⟨"u2", "agent@example.com", "agent"⟩) =
      .permit :=
  ⟨(role_guard_agent ⟨"u2", "agent@example.com", "agent"⟩ rfl).1,
   (role_guard_agent ⟨"u2", "agent@example.com", "agent"⟩ rfl).2.1⟩

/-! ## Markdown pipeline (`processMarkdown`, utils/markdown.ts, and
`sanitizeHtml`, middleware/validationMiddleware.ts) -/

/-- The `ALLOWED_TAGS` list passed to the sanitizer
(validationMiddleware.ts lines 9-12). -/
def ALLOWED_TAGS : List String :=
  ["p", "br", "strong", "em", "ul", "ol", "li", "h1", "h2", "h3",
   "code", "pre", "blockquote"]

/-- The `ALLOWED_ATTR` list passed to the sanitizer
(validationMiddleware.ts lines 9-12). -/
def ALLOWED_ATTR : List String := ["href", "target", "rel"]

/-- An HTML fragment as the sanitizer sees it: a stream of text runs,
opening tags with attributes, and closing tags. -/
inductive HtmlTok where
  | text (s : String)
  | tagOpen (tag : String) (attrs : List (String × String))
  | tagClose (tag : String)
deriving Repr, DecidableEq

/-- Modelled from the spec: the `DOMPurify.sanitize` call inside
`sanitizeHtml` (validationMiddleware.ts lines 8-13) — the sanitizer
library itself is not part of this repository. Per the spec's contract,
any tag outside `ALLOWED_TAGS` is stripped (removed, not escaped), text
content is preserved, and attributes of kept elements are filtered to
`ALLOWED_ATTR`. -/
def sanitizeTok : HtmlTok → Option HtmlTok
  | .text s => some (.text s)
  | .tagOpen tag attrs =>
    if decide (tag ∈ ALLOWED_TAGS) then
      some (.tagOpen tag (attrs.filter (fun a => decide (a.1 ∈ ALLOWED_ATTR))))
    else none
  | .tagClose tag =>
    if decide (tag ∈ ALLOWED_TAGS) then some (.tagClose tag) else none

/-- `sanitizeHtml` over an HTML token stream. -/
def sanitizeHtml (html : List HtmlTok) : List HtmlTok :=
  html.filterMap sanitizeTok

/-- `processMarkdown` (utils/markdown.ts lines 4-12): render the markdown
with the `marked` library and sanitize the result; when rendering throws,
catch the error and fall back to sanitizing the raw input text instead of
propagating the failure. `marked` is the renderer (a parameter; `.error`
is a thrown exception) and `domParse` is the HTML parsing the sanitizer
applies to its string input. The function is total: no input makes it
fail. -/
def processMarkdown (marked : String → Except String (List HtmlTok))
    (domParse : String → List HtmlTok) (markdown : String) : List HtmlTok :=
  match marked markdown with
  | .ok html => sanitizeHtml html
  | .error _ => sanitizeHtml (domParse markdown)

/-- A token is within the sanitizer's fixed allow-list: any text, or a
tag from `ALLOWED_TAGS` whose attributes are all from `ALLOWED_ATTR`. -/
def tokAllowed : HtmlTok → Prop
  | .text _ => True
  | .tagOpen tag attrs => tag ∈ ALLOWED_TAGS ∧ ∀ a ∈ attrs, a.1 ∈ ALLOWED_ATTR
  | .tagClose tag => tag ∈ ALLOWED_TAGS

instance : DecidablePred tokAllowed := by
  intro t
  cases t <;> simp only [tokAllowed] <;> infer_instance

theorem mem_sanitizeHtml_allowed {t : HtmlTok} {html : List HtmlTok}
    (h : t ∈ sanitizeHtml html) : tokAllowed t := by
  obtain ⟨u, hu, hmap⟩ := List.mem_filterMap.mp h
  cases u with
  | text s =>
    obtain rfl : HtmlTok.text s = t := by simpa [sanitizeTok] using hmap
    trivial
  | tagOpen tag attrs =>
    by_cases htag : tag ∈ ALLOWED_TAGS
    · obtain rfl : HtmlTok.tagOpen tag
          (attrs.filter (fun a => decide (a.1 ∈ ALLOWED_ATTR))) = t := by
        simpa [sanitizeTok, htag] using hmap
      refine ⟨htag, ?_⟩
      intro a ha
      simpa using (List.mem_filter.mp ha).2
    · simp [sanitizeTok, htag] at hmap
  | tagClose tag =>
    by_cases htag : tag ∈ ALLOWED_TAGS
    · obtain rfl : HtmlTok.tagClose tag = t := by simpa [sanitizeTok, htag] using hmap
      exact htag
    · simp [sanitizeTok, htag] at hmap

/-- C8: markdown processing is a total function — no exception reaches
the caller; when rendering fails it falls back to sanitizing the raw
input text; and its output never contains a tag outside the fixed
allow-list (in particular, no `script` element survives), regardless of
what the renderer or parser produce. -/
theorem process_markdown_safe (marked : String → Except String (List HtmlTok))
    (domParse : String → List HtmlTok) (s : String) :
    (∀ t ∈ processMarkdown marked domParse s, tokAllowed t) ∧
    (∀ e, marked s = .error e →
      processMarkdown marked domParse s = sanitizeHtml (domParse s)) := by
  constructor
  · intro t ht
    unfold processMarkdown at ht
    cases hm : marked s with
    | ok html => rw [hm] at ht; exact mem_sanitizeHtml_allowed ht
    | error e => rw [hm] at ht; exact mem_sanitizeHtml_allowed ht
  · intro e he
    unfold processMarkdown
    rw [he]

theorem process_markdown_safe_witness :
    processMarkdown (fun _ => .error "marked threw")
      (fun s => [HtmlTok.tagOpen "script" [("src", "evil.js")],
                 HtmlTok.text s, HtmlTok.tagClose "script"])
      "raw input" = [HtmlTok.text "raw input"] ∧
    tokAllowed (HtmlTok.text "raw input") := by
  have h := (process_markdown_safe (fun _ => .error "marked threw")
    (fun s => [HtmlTok.tagOpen "script" [("src", "evil.js")],
               HtmlTok.text s, HtmlTok.tagClose "script"]) "raw input").2
    "marked threw" rfl
  constructor
  · rw [h]; decide
  · have hall := (process_markdown_safe (fun _ => .error "marked threw")
      (fun s => [HtmlTok.tagOpen "script" [("src", "evil.js")],
                 HtmlTok.text s, HtmlTok.tagClose "script"]) "raw input").1
    apply hall
    rw [h]; decide

/-! ## Comment creation (`createComment`, controllers/commentsController.ts) -/

/-- Responses of the add-comment endpoint: 404 when the complaint does
not exist, 400 when the authenticated account row is missing, 201 with
the created comment otherwise. -/
inductive CommentResult where
  | complaintNotFound
  | userNotFound
  | created (cm : Comment)
deriving Repr, DecidableEq

/-- The HTTP status code of each add-comment outcome, as sent by the
controller. -/
def CommentResult.statusCode : CommentResult → Nat
  | .complaintNotFound => 404
  | .userNotFound => 400
  | .created _ => 201

/-- `createComment` (commentsController.ts): verifies the complaint
exists (404 otherwise, before any insert), resolves the author's display
name (400 when missing), renders the comment markdown, and inserts the
comment row with the supplied `is_internal` flag. Returns the response
and the resulting `complaint_comments` table. -/
def createComment (processMd : String → String) (genId : String)
    (complaints : List Complaint) (admins : List AdminUser)
    (comments : List Comment) (userId : String) (complaintId : String)
    (commentText : String) (isInternal : Bool) : CommentResult × List Comment :=
  match complaints.find? (fun c => decide (c.id = complaintId)) with
  | none => (.complaintNotFound, comments)
  | some _ =>
    match admins.find? (fun a => decide (a.id = userId)) with
    | none => (.userNotFound, comments)
    | some u =>
      let cm : Comment :=
        { id := genId
          complaint_id := complaintId
          author_id := userId
          author_name := u.name
          comment_text := commentText
          comment_html := processMd commentText
          is_internal := isInternal }
      (.created cm, comments ++ [cm])

/-- C10: when the requested complaint id matches no stored complaint, the
add-comment operation responds 404 and the comment store is returned
unchanged — nothing is inserted on this error path. -/
theorem create_comment_missing_complaint (processMd : String → String)
    (genId : String) (complaints : List Complaint) (admins : List AdminUser)
    (comments : List Comment) (userId complaintId commentText : String)
    (isInternal : Bool)
    (h : complaints.find? (fun c => decide (c.id = complaintId)) = none) :
    createComment processMd genId complaints admins comments userId complaintId
        commentText isInternal = (.complaintNotFound, comments) ∧
    CommentResult.complaintNotFound.statusCode = 404 := by
  constructor
  · unfold createComment
    rw [h]
  · rfl

theorem create_comment_missing_complaint_witness :
    createComment (fun s => s) "c9" [exComplaint] [exInactiveAdmin]
        [exPublicComment] "u1" "no-such-id" "hello" false =
      (.complaintNotFound, [exPublicComment]) :=
  (create_comment_missing_complaint (fun s => s) "c9" [exComplaint]
    [exInactiveAdmin] [exPublicComment] "u1" "no-such-id" "hello" false
    (by decide)).1

/-! ## Submission / lookup roundtrip (C6) -/

/-- C6: for every valid submission, the returned tracking id equals the
upper-cased leading segment (`trackingOf genId = jsToUpper (leadSeg
genId)`) of the stored identifier; and, provided no other stored
identifier shares that leading segment case-insensitively, a subsequent
public lookup with that tracking id resolves (by the case-insensitive
leading-segment scan) to the very complaint that was stored. -/
theorem submit_tracking_roundtrip (processMd : String → String) (now : Nat)
    (genId : String) (req : SubmitReq) (db : List Complaint)
    (comments : List Comment)
    (hlead : leadSeg genId ≠ "")
    (huniq : ∀ c ∈ db, jsToUpper (leadSeg c.id) ≠ jsToUpper (leadSeg genId)) :
    createComplaint processMd now genId req db =
      (.created genId (jsToUpper (leadSeg genId)),
       db ++ [newComplaintRow processMd now genId req]) ∧
    (newComplaintRow processMd now genId req).id = genId ∧
    getComplaintByTrackingId (db ++ [newComplaintRow processMd now genId req])
        comments (trackingOf genId) =
      .ok (newComplaintRow processMd now genId req)
        ((commentsOf comments genId).filter (fun cm => !cm.is_internal)) := by
  refine ⟨rfl, rfl, ?_⟩
  have htid : trackingOf genId ≠ "" := by
    intro hc
    exact hlead ((jsToUpper_eq_empty_iff _).mp hc)
  have hfilter :
      (db ++ [newComplaintRow processMd now genId req]).filter
          (trackingMatches (trackingOf genId)) =
        [newComplaintRow processMd now genId req] := by
    rw [List.filter_append]
    have h1 : db.filter (trackingMatches (trackingOf genId)) = [] := by
      rw [List.filter_eq_nil_iff]
      intro a ha
      simp only [trackingMatches, trackingOf, jsToUpper_idem, decide_eq_true_eq]
      exact huniq a ha
    have h2 : [newComplaintRow processMd now genId req].filter
        (trackingMatches (trackingOf genId)) =
        [newComplaintRow processMd now genId req] := by
      simp [trackingMatches, trackingOf, newComplaintRow, jsToUpper_idem]
    rw [h1, h2, List.nil_append]
  unfold getComplaintByTrackingId
  rw [if_neg htid, hfilter]
  rfl

/-- The submission request used to instantiate the roundtrip theorem;
its body carries a client-supplied `status` that must be ignored. -/
def exSubmitReq : SubmitReq :=
  { name := "Ann"
    email := "ann@example.com"
    complaint := "This is a long enough complaint body."
    status := some "Resolved" }

theorem submit_tracking_roundtrip_witness :
    getComplaintByTrackingId
        ((createComplaint (fun s => s) 0 "ab12-xyz" exSubmitReq []).2) [] "AB12" =
      .ok (newComplaintRow (fun s => s) 0 "ab12-xyz" exSubmitReq) [] := by
  have h := submit_tracking_roundtrip (fun s => s) 0 "ab12-xyz" exSubmitReq [] []
    (by decide) (by intro c hc; simp at hc)
  have ht : trackingOf "ab12-xyz" = "AB12" := by decide
  show getComplaintByTrackingId
      ([] ++ [newComplaintRow (fun s => s) 0 "ab12-xyz" exSubmitReq]) [] "AB12" = _
  rw [← ht]
  exact h.2.2

end ComplaintHub
